import Mathlib

/-!
Shallow embedding of the Libreria e-commerce backend (FastAPI + SQLModel)
and proofs about its request handlers.

Conventions of the embedding:
- `Decimal` values are modelled as rationals.
- `datetime` instants are modelled as integers; `date` values as a
  year/month/day record.
- The relational store is a list of records per table; the database session
  is explicit state passing: a handler maps the pre-state to a result
  (success value or HTTP error) together with the post-state.  A rollback
  is modelled by returning the unchanged pre-state.
- Python truthiness of an `Optional[int]` field (None and 0 are falsy) is
  modelled by `optNatTruthy`; a `datetime` object is always truthy, so
  truthiness of an `Optional[datetime]` is `Option.isSome`.
-/

namespace Libreria

/-! Enums from app/models/base.py -/

inductive UserRole where
  | CUSTOMER
  | ADMIN
  | STAFF
  deriving DecidableEq, Repr

inductive DiscountType where
  | PERCENTAGE
  | FIXED_AMOUNT
  deriving DecidableEq, Repr

inductive TipoDocumento where
  | DNI
  | RUC
  | CE
  deriving DecidableEq, Repr

inductive Genero where
  | MASCULINO
  | FEMENINO
  | NO_ESPECIFICADO
  deriving DecidableEq, Repr

inductive OrderStatus where
  | PENDING_PAYMENT
  | PAID
  | PROCESSING
  | SHIPPED
  | DELIVERED
  | CANCELLED
  deriving DecidableEq, Repr

/-! Basic time and HTTP modelling -/

abbrev Datetime := Int

structure Date where
  year : Int
  month : Int
  day : Int
  deriving DecidableEq, Repr

inductive ApiError where
  | badRequest (detail : String)
  | forbidden (detail : String)
  | notFound (detail : String)
  | serverError (detail : String)
  deriving DecidableEq, Repr

def ApiError.status : ApiError → Nat
  | badRequest _ => 400
  | forbidden _ => 403
  | notFound _ => 404
  | serverError _ => 500

/-- Python truthiness of an Optional[int]: None and 0 are falsy. -/
def optNatTruthy : Option Nat → Bool
  | none => false
  | some n => n != 0

/-! Promotion and Coupon records, app/models/promotion_models.py.
`fecha_inicio` is declared Optional with default_factory datetime.now, so a
stored row always carries a value; the handlers compare it unguarded, hence
it is embedded as a plain instant. -/

structure Promotion where
  id : Nat
  nombre : String
  descripcion : Option String
  tipo_descuento : DiscountType
  valor : ℚ
  monto_minimo_compra : ℚ
  fecha_inicio : Datetime
  fecha_fin : Option Datetime
  es_activa : Bool
  uso_maximo : Option Nat
  uso_actual : Nat
  deriving DecidableEq, Repr

structure Coupon where
  id : Nat
  codigo : String
  promocion_id : Nat
  fecha_expiracion : Option Datetime
  limite_usos : Option Nat
  usos_actuales : Nat
  es_activo : Bool
  solo_primer_compra : Bool
  deriving DecidableEq, Repr

/-! Coupon validity, the two encodings in app/api/routes/promotions.py -/

/-- The sequential checks of validate_coupon (promotions.py lines 322-341):
the first failing check yields its error message, otherwise the coupon is
valid (`none`). -/
def validate_coupon_error (coupon : Coupon) (promotion : Promotion)
    (now : Datetime) : Option String :=
  if coupon.es_activo = false then some "Cupón inactivo"
  else if coupon.fecha_expiracion.elim false (fun d => decide (d < now)) then
    some "Cupón expirado"
  else if coupon.limite_usos.elim false
      (fun l => (l != 0) && decide (l ≤ coupon.usos_actuales)) then
    some "Cupón agotado"
  else if promotion.es_activa = false then some "Promoción inactiva"
  else if promotion.fecha_fin.elim false (fun d => decide (d < now)) then
    some "Promoción expirada"
  else if decide (now < promotion.fecha_inicio) then
    some "Promoción aún no vigente"
  else none

/-- The composite is_valid conjunction inside calculate_discount
(promotions.py lines 459-466). -/
def calculate_discount_is_valid (coupon : Coupon) (promotion : Promotion)
    (now : Datetime) : Bool :=
  coupon.es_activo &&
  promotion.es_activa &&
  coupon.fecha_expiracion.elim true (fun d => decide (now ≤ d)) &&
  promotion.fecha_fin.elim true (fun d => decide (now ≤ d)) &&
  decide (promotion.fecha_inicio ≤ now) &&
  coupon.limite_usos.elim true
    (fun l => (l == 0) || decide (coupon.usos_actuales < l))

/-! The cart walk and discount computation of calculate_discount
(promotions.py lines 414-496). -/

structure CartItem where
  book_id : Nat
  quantity : Int
  price : ℚ
  deriving DecidableEq, Repr

def item_total (item : CartItem) : ℚ := item.price * item.quantity

def cart_subtotal (cart_items : List CartItem) : ℚ :=
  (cart_items.map item_total).sum

/-- The discount amount computed by calculate_discount once the coupon and
its promotion have been fetched (promotions.py lines 442-483).  The amount
stays 0 when the coupon is invalid or the minimum purchase threshold is not
met. -/
def calculate_discount_amount (cart_items : List CartItem) (coupon : Coupon)
    (promotion : Promotion) (now : Datetime) : ℚ :=
  if calculate_discount_is_valid coupon promotion now then
    if cart_subtotal cart_items ≥ promotion.monto_minimo_compra then
      match promotion.tipo_descuento with
      | DiscountType.PERCENTAGE =>
          (cart_subtotal cart_items * promotion.valor) / 100
      | DiscountType.FIXED_AMOUNT =>
          min promotion.valor (cart_subtotal cart_items)
    else 0
  else 0

/-- final_total = total_items - discount_amount (promotions.py line 485). -/
def calculate_discount_final_total (cart_items : List CartItem)
    (coupon : Coupon) (promotion : Promotion) (now : Datetime) : ℚ :=
  cart_subtotal cart_items -
    calculate_discount_amount cart_items coupon promotion now

end Libreria

namespace Libreria

/-- An optional deadline has not passed exactly when it has not yet
expired, in the two complementary phrasings the code uses. -/
theorem opt_deadline_not_passed (o : Option Int) (now : Int) :
    o.elim true (fun d => decide (now ≤ d)) =
      !(o.elim false (fun d => decide (d < now))) := by
  cases o with
  | none => rfl
  | some d =>
    show decide (now ≤ d) = !decide (d < now)
    rw [← decide_not, decide_eq_decide]
    exact Int.not_lt.symm

/-- An optional usage limit leaves room exactly when it is not exhausted,
in the two complementary phrasings the code uses. -/
theorem opt_limit_not_reached (o : Option Nat) (usos : Nat) :
    o.elim true (fun l => (l == 0) || decide (usos < l)) =
      !(o.elim false (fun l => (l != 0) && decide (l ≤ usos))) := by
  cases o with
  | none => rfl
  | some l =>
    show ((l == 0) || decide (usos < l)) = !((l != 0) && decide (l ≤ usos))
    rw [Bool.not_and, bne, Bool.not_not, ← decide_not]
    congr 1
    rw [decide_eq_decide]
    exact Iff.symm Nat.not_le

/-- The promotion has started exactly when it is not still in the future. -/
theorem start_reached_iff_not_future (fi now : Int) :
    decide (fi ≤ now) = !decide (now < fi) := by
  rw [← decide_not, decide_eq_decide]
  exact Int.not_lt.symm

/-- C2: the conjunction is_valid inside calculate_discount agrees with the
sequential checks of validate_coupon on every coupon-promotion pair at every
instant. -/
theorem coupon_validity_encodings_agree (coupon : Coupon)
    (promotion : Promotion) (now : Datetime) :
    calculate_discount_is_valid coupon promotion now =
      (validate_coupon_error coupon promotion now).isNone := by
  unfold calculate_discount_is_valid validate_coupon_error
  rw [opt_deadline_not_passed coupon.fecha_expiracion now,
      opt_deadline_not_passed promotion.fecha_fin now,
      opt_limit_not_reached coupon.limite_usos coupon.usos_actuales,
      start_reached_iff_not_future promotion.fecha_inicio now]
  generalize coupon.fecha_expiracion.elim false (fun d => decide (d < now)) = e1
  generalize promotion.fecha_fin.elim false (fun d => decide (d < now)) = f1
  generalize (decide (now < promotion.fecha_inicio)) = s
  generalize coupon.limite_usos.elim false
    (fun l => (l != 0) && decide (l ≤ coupon.usos_actuales)) = g
  cases coupon.es_activo <;> cases promotion.es_activa <;>
    cases e1 <;> cases f1 <;> cases s <;> cases g <;> rfl

/-! Concrete data for the discount-clamping claim -/

def c1_cart : List CartItem := [{ book_id := 1, quantity := 1, price := 10 }]

def c1_promotion : Promotion :=
  { id := 1, nombre := "SUPER", descripcion := none,
    tipo_descuento := DiscountType.PERCENTAGE, valor := 200,
    monto_minimo_compra := 0, fecha_inicio := 0, fecha_fin := none,
    es_activa := true, uso_maximo := none, uso_actual := 0 }

def c1_coupon : Coupon :=
  { id := 1, codigo := "SUPER200", promocion_id := 1, fecha_expiracion := none,
    limite_usos := none, usos_actuales := 0, es_activo := true,
    solo_primer_compra := false }

def c1_promotion_fixed : Promotion :=
  { id := 2, nombre := "CINCO", descripcion := none,
    tipo_descuento := DiscountType.FIXED_AMOUNT, valor := 5,
    monto_minimo_compra := 0, fecha_inicio := 0, fecha_fin := none,
    es_activa := true, uso_maximo := none, uso_actual := 0 }

/-- C1 counterexample: a percentage promotion with valor 200 on a cart of
subtotal 10, reachable through a coupon that passes every validity check and
meets the minimum-purchase threshold, yields a discount of 20 - larger than
the subtotal - and a final total of -10, so the percentage branch is not
clamped and the final total can be negative. -/
theorem percentage_discount_not_clamped :
    calculate_discount_is_valid c1_coupon c1_promotion 0 = true ∧
    cart_subtotal c1_cart = 10 ∧
    c1_promotion.monto_minimo_compra ≤ cart_subtotal c1_cart ∧
    calculate_discount_amount c1_cart c1_coupon c1_promotion 0 = 20 ∧
    cart_subtotal c1_cart <
      calculate_discount_amount c1_cart c1_coupon c1_promotion 0 ∧
    calculate_discount_final_total c1_cart c1_coupon c1_promotion 0 = -10 := by
  have hsub : cart_subtotal c1_cart = 10 := by
    norm_num [cart_subtotal, c1_cart, item_total]
  have hamount : calculate_discount_amount c1_cart c1_coupon c1_promotion 0 = 20 := by
    rw [calculate_discount_amount,
      if_pos (show calculate_discount_is_valid c1_coupon c1_promotion 0 = true from rfl),
      if_pos (show cart_subtotal c1_cart ≥ c1_promotion.monto_minimo_compra by
        rw [hsub]; norm_num [c1_promotion])]
    show cart_subtotal c1_cart * c1_promotion.valor / 100 = 20
    rw [hsub]
    norm_num [c1_promotion]
  refine ⟨rfl, hsub, by rw [hsub]; norm_num [c1_promotion], hamount, ?_, ?_⟩
  · rw [hsub, hamount]; norm_num
  · rw [calculate_discount_final_total, hsub, hamount]; norm_num

/-- C1 (amended): for every cart and every coupon passing the validity
checks whose promotion threshold is met, the fixed-amount discount equals
min(valor, subtotal) and is clamped, so the final total is nonnegative
whenever the subtotal is; the percentage discount equals
subtotal*valor/100 with no clamping, and the final total is guaranteed
nonnegative only under the additional assumption valor ≤ 100. -/
theorem calculate_discount_characterization (cart_items : List CartItem)
    (coupon : Coupon) (promotion : Promotion) (now : Datetime)
    (hvalid : calculate_discount_is_valid coupon promotion now = true)
    (hmin : promotion.monto_minimo_compra ≤ cart_subtotal cart_items)
    (hpos : 0 ≤ cart_subtotal cart_items) :
    (promotion.tipo_descuento = DiscountType.FIXED_AMOUNT →
      calculate_discount_amount cart_items coupon promotion now =
        min promotion.valor (cart_subtotal cart_items) ∧
      calculate_discount_amount cart_items coupon promotion now ≤
        cart_subtotal cart_items ∧
      0 ≤ calculate_discount_final_total cart_items coupon promotion now) ∧
    (promotion.tipo_descuento = DiscountType.PERCENTAGE →
      calculate_discount_amount cart_items coupon promotion now =
        cart_subtotal cart_items * promotion.valor / 100 ∧
      (promotion.valor ≤ 100 →
        calculate_discount_amount cart_items coupon promotion now ≤
          cart_subtotal cart_items ∧
        0 ≤ calculate_discount_final_total cart_items coupon promotion now)) := by
  have hform : calculate_discount_amount cart_items coupon promotion now =
      (match promotion.tipo_descuento with
       | DiscountType.PERCENTAGE =>
           (cart_subtotal cart_items * promotion.valor) / 100
       | DiscountType.FIXED_AMOUNT =>
           min promotion.valor (cart_subtotal cart_items)) := by
    unfold calculate_discount_amount
    rw [if_pos hvalid, if_pos hmin]
  constructor
  · intro htipo
    rw [calculate_discount_final_total, hform, htipo]
    refine ⟨rfl, min_le_right _ _, ?_⟩
    have h1 : min promotion.valor (cart_subtotal cart_items) ≤
        cart_subtotal cart_items := min_le_right _ _
    linarith
  · intro htipo
    rw [calculate_discount_final_total, hform, htipo]
    refine ⟨rfl, ?_⟩
    intro hv
    have h100 : (0 : ℚ) < 100 := by norm_num
    have hle : cart_subtotal cart_items * promotion.valor ≤
        cart_subtotal cart_items * 100 :=
      mul_le_mul_of_nonneg_left hv hpos
    have h2 : cart_subtotal cart_items * promotion.valor / 100 ≤
        cart_subtotal cart_items := by
      rw [div_le_iff₀ h100]
      linarith
    exact ⟨h2, by linarith⟩

/-- C1 witness: the amended characterization applied to a concrete cart of
subtotal 10 with a valid coupon for a fixed-amount promotion of valor 5. -/
theorem calculate_discount_characterization_witness :
    (c1_promotion_fixed.tipo_descuento = DiscountType.FIXED_AMOUNT →
      calculate_discount_amount c1_cart c1_coupon c1_promotion_fixed 0 =
        min c1_promotion_fixed.valor (cart_subtotal c1_cart) ∧
      calculate_discount_amount c1_cart c1_coupon c1_promotion_fixed 0 ≤
        cart_subtotal c1_cart ∧
      0 ≤ calculate_discount_final_total c1_cart c1_coupon c1_promotion_fixed 0) ∧
    (c1_promotion_fixed.tipo_descuento = DiscountType.PERCENTAGE →
      calculate_discount_amount c1_cart c1_coupon c1_promotion_fixed 0 =
        cart_subtotal c1_cart * c1_promotion_fixed.valor / 100 ∧
      (c1_promotion_fixed.valor ≤ 100 →
        calculate_discount_amount c1_cart c1_coupon c1_promotion_fixed 0 ≤
          cart_subtotal c1_cart ∧
        0 ≤ calculate_discount_final_total c1_cart c1_coupon c1_promotion_fixed 0)) :=
  calculate_discount_characterization c1_cart c1_coupon c1_promotion_fixed 0
    rfl
    (by norm_num [c1_promotion_fixed, cart_subtotal, c1_cart, item_total])
    (by norm_num [cart_subtotal, c1_cart, item_total])

/-! User records, app/models/user_models.py -/

structure User where
  id : Nat
  nombre : String
  apellido : String
  email : String
  hashed_password : String
  telefono : Option String
  tipo_documento : TipoDocumento
  numero_documento : String
  fecha_nacimiento : Option Date
  genero : Genero
  rol : UserRole
  acepta_marketing : Bool
  fecha_ultima_actividad : Option Datetime
  esta_activo : Bool
  fecha_verificacion_email : Option Datetime
  fecha_creacion : Option Datetime
  deriving DecidableEq, Repr

/-! Validation helpers of app/api/routes/users.py -/

/-- Python str.isdigit over the ASCII digits: the string is nonempty and
every character is a digit. -/
def str_isdigit (s : String) : Bool := s.length != 0 && s.all Char.isDigit

/-- The hyphen and space cleanup at the top of validate_documento_peruano
(users.py line 25); str.replace removes every occurrence. -/
def clean_documento (numero : String) : String :=
  (numero.replace "-" "").replace " " ""

/-- validate_documento_peruano (users.py lines 23-41).  TipoDocumento is a
closed enum, so the final Python fallthrough returning False is
unreachable. -/
def validate_documento_peruano (tipo : TipoDocumento) (numero : String) :
    Bool :=
  let n := clean_documento numero
  match tipo with
  | TipoDocumento.DNI => n.length == 8 && str_isdigit n
  | TipoDocumento.RUC =>
      if (n.length != 11) || !(str_isdigit n) then false
      else "10".isPrefixOf n || "15".isPrefixOf n || "17".isPrefixOf n ||
        "20".isPrefixOf n
  | TipoDocumento.CE => n.length == 9 && str_isdigit n

/-- calculate_age (users.py lines 43-46); the Python tuple comparison
(today.month, today.day) < (birth.month, birth.day) is lexicographic. -/
def calculate_age (today : Date) (fecha_nacimiento : Date) : Int :=
  today.year - fecha_nacimiento.year -
    (if today.month < fecha_nacimiento.month ∨
        (today.month = fecha_nacimiento.month ∧
          today.day < fecha_nacimiento.day) then 1 else 0)

/-- The document predicate exactly as claim C8 words it: after removing
hyphens and spaces, DNI means exactly 8 digits, RUC exactly 11 digits
beginning with 10, 15, 17 or 20, and CE exactly 9 digits. -/
def documento_spec (tipo : TipoDocumento) (numero : String) : Bool :=
  let n := clean_documento numero
  match tipo with
  | TipoDocumento.DNI => n.length == 8 && n.all Char.isDigit
  | TipoDocumento.RUC =>
      n.length == 11 && n.all Char.isDigit &&
        ("10".isPrefixOf n || "15".isPrefixOf n || "17".isPrefixOf n ||
          "20".isPrefixOf n)
  | TipoDocumento.CE => n.length == 9 && n.all Char.isDigit

/-- C8: validate_documento_peruano first cleans hyphens and spaces and then
accepts exactly the strings described by the claim, for every document type
and number. -/
theorem validate_documento_matches_spec (tipo : TipoDocumento)
    (numero : String) :
    validate_documento_peruano tipo numero = documento_spec tipo numero := by
  cases tipo with
  | DNI =>
    show ((clean_documento numero).length == 8 &&
        str_isdigit (clean_documento numero)) =
      ((clean_documento numero).length == 8 &&
        (clean_documento numero).all Char.isDigit)
    generalize clean_documento numero = n
    unfold str_isdigit
    by_cases h : n.length = 8
    · have hb : (n.length == 8) = true := beq_iff_eq.mpr h
      have h0 : (n.length != 0) = true := by simp [bne, h]
      rw [hb, h0]
      cases n.all Char.isDigit <;> rfl
    · have hb : (n.length == 8) = false := beq_eq_false_iff_ne.mpr h
      rw [hb]
      rfl
  | CE =>
    show ((clean_documento numero).length == 9 &&
        str_isdigit (clean_documento numero)) =
      ((clean_documento numero).length == 9 &&
        (clean_documento numero).all Char.isDigit)
    generalize clean_documento numero = n
    unfold str_isdigit
    by_cases h : n.length = 9
    · have hb : (n.length == 9) = true := beq_iff_eq.mpr h
      have h0 : (n.length != 0) = true := by simp [bne, h]
      rw [hb, h0]
      cases n.all Char.isDigit <;> rfl
    · have hb : (n.length == 9) = false := beq_eq_false_iff_ne.mpr h
      rw [hb]
      rfl
  | RUC =>
    show (if ((clean_documento numero).length != 11) ||
          !(str_isdigit (clean_documento numero)) then false
        else "10".isPrefixOf (clean_documento numero) ||
          "15".isPrefixOf (clean_documento numero) ||
          "17".isPrefixOf (clean_documento numero) ||
          "20".isPrefixOf (clean_documento numero)) =
      ((clean_documento numero).length == 11 &&
        (clean_documento numero).all Char.isDigit &&
        ("10".isPrefixOf (clean_documento numero) ||
          "15".isPrefixOf (clean_documento numero) ||
          "17".isPrefixOf (clean_documento numero) ||
          "20".isPrefixOf (clean_documento numero)))
    generalize clean_documento numero = n
    unfold str_isdigit
    by_cases h : n.length = 11
    · have hb : (n.length == 11) = true := beq_iff_eq.mpr h
      have hbne : (n.length != 11) = false := by simp [bne, h]
      have h0 : (n.length != 0) = true := by simp [bne, h]
      rw [hbne, hb, h0]
      cases n.all Char.isDigit <;>
        cases "10".isPrefixOf n <;> cases "15".isPrefixOf n <;>
        cases "17".isPrefixOf n <;> cases "20".isPrefixOf n <;> rfl
    · have hb : (n.length == 11) = false := beq_eq_false_iff_ne.mpr h
      have hbne : (n.length != 11) = true := by simp [bne, h]
      rw [hbne, hb]
      rfl

/-! Request bodies for user creation, app/models/user_models.py.  Neither
UserCreate nor UserRegister carries a rol field; pydantic parsing drops any
extra JSON key, so a submitted role never reaches the handlers. -/

structure UserCreate where
  nombre : String
  apellido : String
  email : String
  password : String
  telefono : Option String
  tipo_documento : TipoDocumento
  numero_documento : String
  fecha_nacimiento : Option Date
  genero : Genero
  acepta_marketing : Bool
  deriving DecidableEq, Repr

structure UserRegister where
  nombre : String
  apellido : String
  email : String
  password : String
  telefono : Option String
  tipo_documento : TipoDocumento
  numero_documento : String
  fecha_nacimiento : Option Date
  genero : Genero
  acepta_marketing : Bool
  deriving DecidableEq, Repr

/-- The User row built by create_user (users.py lines 114-118): the request
fields, the hashed password, and the column defaults of the User model
(rol cliente, esta_activo, fecha_creacion now).  The bcrypt hash is an
opaque environment function passed in as hash_password. -/
def user_from_create (hash_password : String → String) (now : Datetime)
    (next_id : Nat) (user_data : UserCreate) : User :=
  { id := next_id
    nombre := user_data.nombre
    apellido := user_data.apellido
    email := user_data.email
    hashed_password := hash_password user_data.password
    telefono := user_data.telefono
    tipo_documento := user_data.tipo_documento
    numero_documento := user_data.numero_documento
    fecha_nacimiento := user_data.fecha_nacimiento
    genero := user_data.genero
    rol := UserRole.CUSTOMER
    acepta_marketing := user_data.acepta_marketing
    fecha_ultima_actividad := none
    esta_activo := true
    fecha_verificacion_email := none
    fecha_creacion := some now }

/-- The User row built by register_user (users.py lines 220-224) and by
auth.register (auth.py lines 45-49): as user_from_create, with
user_dict rol overwritten by the literal "cliente". -/
def user_from_register (hash_password : String → String) (now : Datetime)
    (next_id : Nat) (user_data : UserRegister) : User :=
  { id := next_id
    nombre := user_data.nombre
    apellido := user_data.apellido
    email := user_data.email
    hashed_password := hash_password user_data.password
    telefono := user_data.telefono
    tipo_documento := user_data.tipo_documento
    numero_documento := user_data.numero_documento
    fecha_nacimiento := user_data.fecha_nacimiento
    genero := user_data.genero
    rol := UserRole.CUSTOMER
    acepta_marketing := user_data.acepta_marketing
    fecha_ultima_actividad := none
    esta_activo := true
    fecha_verificacion_email := none
    fecha_creacion := some now }

/-- create_user (users.py lines 86-128).  commit_ok injects a failure of
the final commit (for example a concurrent unique-constraint violation):
the except branch rolls the session back and reports HTTP 500, leaving the
store unchanged. -/
def create_user (hash_password : String → String) (today : Date)
    (now : Datetime) (next_id : Nat) (commit_ok : Bool)
    (store : List User) (user_data : UserCreate) :
    Except ApiError User × List User :=
  if (store.find? (fun u => u.email == user_data.email)).isSome then
    (Except.error (ApiError.badRequest "Ya existe un usuario con este email"),
      store)
  else if (store.find? (fun u =>
      u.numero_documento == user_data.numero_documento)).isSome then
    (Except.error (ApiError.badRequest
      "Ya existe un usuario con este número de documento"), store)
  else if !(validate_documento_peruano user_data.tipo_documento
      user_data.numero_documento) then
    (Except.error (ApiError.badRequest "Formato de documento inválido"),
      store)
  else if user_data.fecha_nacimiento.elim false
      (fun fn => decide (calculate_age today fn < 13)) then
    (Except.error (ApiError.badRequest
      "Debe ser mayor de 13 años para registrarse"), store)
  else if commit_ok = false then
    (Except.error (ApiError.serverError "commit failed"), store)
  else
    let user := user_from_create hash_password now next_id user_data
    (Except.ok user, store ++ [user])

/-- register_user (users.py lines 194-234): the same validations as
create_user, then the insert with rol forced to cliente. -/
def register_user (hash_password : String → String) (today : Date)
    (now : Datetime) (next_id : Nat) (commit_ok : Bool)
    (store : List User) (user_data : UserRegister) :
    Except ApiError User × List User :=
  if (store.find? (fun u => u.email == user_data.email)).isSome then
    (Except.error (ApiError.badRequest "Ya existe un usuario con este email"),
      store)
  else if (store.find? (fun u =>
      u.numero_documento == user_data.numero_documento)).isSome then
    (Except.error (ApiError.badRequest
      "Ya existe un usuario con este número de documento"), store)
  else if !(validate_documento_peruano user_data.tipo_documento
      user_data.numero_documento) then
    (Except.error (ApiError.badRequest "Formato de documento inválido"),
      store)
  else if user_data.fecha_nacimiento.elim false
      (fun fn => decide (calculate_age today fn < 13)) then
    (Except.error (ApiError.badRequest
      "Debe ser mayor de 13 años para registrarse"), store)
  else if commit_ok = false then
    (Except.error (ApiError.serverError "commit failed"), store)
  else
    let user := user_from_register hash_password now next_id user_data
    (Except.ok user, store ++ [user])

/-- auth.register (auth.py lines 20-63): email and documento uniqueness
checks only (no document-format or age validation), then the insert with
rol forced to cliente. -/
def auth_register (hash_password : String → String) (now : Datetime)
    (next_id : Nat) (commit_ok : Bool) (store : List User)
    (user_data : UserRegister) : Except ApiError User × List User :=
  if (store.find? (fun u => u.email == user_data.email)).isSome then
    (Except.error (ApiError.badRequest "Ya existe un usuario con este email"),
      store)
  else if (store.find? (fun u =>
      u.numero_documento == user_data.numero_documento)).isSome then
    (Except.error (ApiError.badRequest
      "Ya existe un usuario con este número de documento"), store)
  else if commit_ok = false then
    (Except.error (ApiError.serverError "Error interno del servidor"), store)
  else
    let user := user_from_register hash_password now next_id user_data
    (Except.ok user, store ++ [user])

/-! Book records, app/models/book_models.py -/

structure Book where
  id : Nat
  sku : Option String
  titulo : String
  isbn : Option String
  descripcion : Option String
  precio : ℚ
  precio_original : Option ℚ
  stock : Int
  stock_minimo : Int
  url_portada : Option String
  imagenes_adicionales : Option String
  editorial_id : Option Nat
  fecha_publicacion : Option Date
  numero_paginas : Option Int
  idioma : String
  peso_kg : Option ℚ
  dimensiones : Option String
  formato : Option String
  esta_activo : Bool
  es_destacado : Bool
  es_nuevo : Bool
  es_bestseller : Bool
  fecha_creacion : Option Datetime
  fecha_actualizacion : Option Datetime
  vistas : Int
  ventas_totales : Int
  deriving DecidableEq, Repr

structure BookCreate where
  sku : Option String
  titulo : String
  isbn : Option String
  descripcion : Option String
  precio : ℚ
  precio_original : Option ℚ
  stock : Int
  stock_minimo : Int
  url_portada : Option String
  editorial_id : Option Nat
  fecha_publicacion : Option Date
  numero_paginas : Option Int
  idioma : String
  peso_kg : Option ℚ
  dimensiones : Option String
  formato : Option String
  deriving DecidableEq, Repr

/-- The Book row built by create_book: the request fields plus the column
defaults of the Book model. -/
def book_from_create (now : Datetime) (next_id : Nat)
    (book_data : BookCreate) : Book :=
  { id := next_id
    sku := book_data.sku
    titulo := book_data.titulo
    isbn := book_data.isbn
    descripcion := book_data.descripcion
    precio := book_data.precio
    precio_original := book_data.precio_original
    stock := book_data.stock
    stock_minimo := book_data.stock_minimo
    url_portada := book_data.url_portada
    imagenes_adicionales := none
    editorial_id := book_data.editorial_id
    fecha_publicacion := book_data.fecha_publicacion
    numero_paginas := book_data.numero_paginas
    idioma := book_data.idioma
    peso_kg := book_data.peso_kg
    dimensiones := book_data.dimensiones
    formato := book_data.formato
    esta_activo := true
    es_destacado := false
    es_nuevo := false
    es_bestseller := false
    fecha_creacion := some now
    fecha_actualizacion := some now
    vistas := 0
    ventas_totales := 0 }

/-- The unique-column conflict the database reports at commit time: Book.sku
and Book.isbn are declared unique in the model; NULL values never
conflict. -/
def book_unique_conflict (existing new : Book) : Bool :=
  (existing.sku.isSome && existing.sku == new.sku) ||
  (existing.isbn.isSome && existing.isbn == new.isbn)

/-- create_book (books.py lines 43-54): no lookup of any kind precedes the
insert; a duplicate ISBN or SKU surfaces only when the commit violates the
unique constraint, which the generic except branch reports as HTTP 500
after session.rollback(). -/
def create_book (now : Datetime) (next_id : Nat) (store : List Book)
    (book_data : BookCreate) : Except ApiError Book × List Book :=
  let book := book_from_create now next_id book_data
  if store.any (fun b => book_unique_conflict b book) then
    (Except.error
      (ApiError.serverError "IntegrityError: UNIQUE constraint failed"),
      store)
  else
    (Except.ok book, store ++ [book])

/-! The listing handlers behind GET requests with default parameters -/

/-- The first GET / handler of books.py (lines 17-25): select(Book) with no
filter, no pagination. -/
def get_books_plain (store : List Book) : List Book := store

/-- The second GET / handler of books.py (lines 104-182), restricted to its
scalar filters.  The category/author join filters and the text search are
omitted: each such parameter defaults to None and its branch is a no-op for
a request with default query parameters. -/
def get_books_smart (store : List Book) (skip limit : Nat)
    (active_only : Bool) (featured bestseller new_books in_stock : Option Bool)
    (min_price max_price : Option ℚ) : List Book :=
  let q := store
  let q := if active_only then q.filter (fun b => b.esta_activo) else q
  let q := match featured with
    | none => q
    | some v => q.filter (fun b => b.es_destacado == v)
  let q := match bestseller with
    | none => q
    | some v => q.filter (fun b => b.es_bestseller == v)
  let q := match new_books with
    | none => q
    | some v => q.filter (fun b => b.es_nuevo == v)
  let q := match min_price with
    | none => q
    | some p => q.filter (fun b => decide (p ≤ b.precio))
  let q := match max_price with
    | none => q
    | some p => q.filter (fun b => decide (b.precio ≤ p))
  let q := match in_stock with
    | none => q
    | some v =>
        if v then q.filter (fun b => decide (0 < b.stock))
        else q.filter (fun b => b.stock == 0)
  (q.drop skip).take limit

/-- Starlette resolves a request against the route table in registration
order and both books.py handlers are registered at the path "/", so every
GET /books/ request is served by the first handler (line 17); the filtered
handler at line 104 is unreachable. -/
def books_GET_root (store : List Book) : List Book := get_books_plain store

/-- get_users (users.py lines 50-68). -/
def get_users (skip limit : Nat) (active_only : Bool) (store : List User) :
    List User :=
  let q := if active_only then store.filter (fun u => u.esta_activo)
    else store
  (q.drop skip).take limit

/-- get_promotions (promotions.py lines 26-56): with active_only, keep the
promotions that are flagged active and inside their date window
(fecha_fin NULL or in the future, fecha_inicio not in the future). -/
def get_promotions (skip limit : Nat) (active_only : Bool) (now : Datetime)
    (store : List Promotion) : List Promotion :=
  let q := if active_only then
      store.filter (fun p => p.es_activa &&
        p.fecha_fin.elim true (fun d => decide (now ≤ d)) &&
        decide (p.fecha_inicio ≤ now))
    else store
  (q.drop skip).take limit

/-! Category records, app/models/book_models.py -/

structure Category where
  id : Nat
  nombre : String
  url_imagen : Option String
  descripcion : Option String
  categoria_padre_id : Option Nat
  orden_display : Int
  esta_activa : Bool
  deriving DecidableEq, Repr

structure CategoryCreate where
  nombre : String
  url_imagen : Option String
  descripcion : Option String
  categoria_padre_id : Option Nat
  orden_display : Int
  deriving DecidableEq, Repr

/-- create_category (categories.py lines 52-80): a name lookup rejects the
duplicate with 400, a missing parent rejects with 400, otherwise the row is
inserted with the esta_activa default. -/
def create_category (next_id : Nat) (store : List Category)
    (category_data : CategoryCreate) : Except ApiError Category × List Category :=
  if (store.find? (fun c => c.nombre == category_data.nombre)).isSome then
    (Except.error (ApiError.badRequest
      "Ya existe una categoría con este nombre"), store)
  else if category_data.categoria_padre_id.elim false (fun pid =>
      (store.find? (fun c => c.id == pid)).isNone) then
    (Except.error (ApiError.badRequest "La categoría padre no existe"), store)
  else
    let category : Category :=
      { id := next_id
        nombre := category_data.nombre
        url_imagen := category_data.url_imagen
        descripcion := category_data.descripcion
        categoria_padre_id := category_data.categoria_padre_id
        orden_display := category_data.orden_display
        esta_activa := true }
    (Except.ok category, store ++ [category])

/-! Coupon and promotion creation, app/api/routes/promotions.py -/

structure CouponCreate where
  codigo : String
  promocion_id : Nat
  fecha_expiracion : Option Datetime
  limite_usos : Option Nat
  solo_primer_compra : Bool
  deriving DecidableEq, Repr

/-- create_coupon (promotions.py lines 269-299): a codigo lookup rejects the
duplicate with 400, a missing promotion with 404, otherwise the row is
inserted with usos_actuales 0 and es_activo true. -/
def create_coupon (next_id : Nat) (coupons : List Coupon)
    (promotions : List Promotion) (coupon_data : CouponCreate) :
    Except ApiError Coupon × List Coupon :=
  if (coupons.find? (fun c => c.codigo == coupon_data.codigo)).isSome then
    (Except.error (ApiError.badRequest "Ya existe un cupón con este código"),
      coupons)
  else if (promotions.find? (fun p =>
      p.id == coupon_data.promocion_id)).isNone then
    (Except.error (ApiError.notFound "Promoción no encontrada"), coupons)
  else
    let coupon : Coupon :=
      { id := next_id
        codigo := coupon_data.codigo
        promocion_id := coupon_data.promocion_id
        fecha_expiracion := coupon_data.fecha_expiracion
        limite_usos := coupon_data.limite_usos
        usos_actuales := 0
        es_activo := true
        solo_primer_compra := coupon_data.solo_primer_compra }
    (Except.ok coupon, coupons ++ [coupon])

/-- require_admin (deps.py lines 66-73): reject with 403 when the rol of the
authenticated user is not in [ADMIN, STAFF]. -/
def require_admin (current_user : User) : Except ApiError User :=
  if !([UserRole.ADMIN, UserRole.STAFF].contains current_user.rol) then
    Except.error (ApiError.forbidden "No tienes permisos de administrador")
  else
    Except.ok current_user

structure PromotionCreate where
  nombre : String
  descripcion : Option String
  tipo_descuento : DiscountType
  valor : ℚ
  monto_minimo_compra : ℚ
  fecha_inicio : Option Datetime
  fecha_fin : Option Datetime
  uso_maximo : Option Nat
  deriving DecidableEq, Repr

/-- create_promotion (promotions.py lines 78-94): require_admin guards the
handler via dependency injection, so a rejected user never reaches the
body; otherwise the promotion is inserted with the model defaults. -/
def create_promotion (now : Datetime) (next_id : Nat)
    (store : List Promotion) (current_user : User)
    (promotion_data : PromotionCreate) :
    Except ApiError Promotion × List Promotion :=
  match require_admin current_user with
  | Except.error e => (Except.error e, store)
  | Except.ok _ =>
    let promotion : Promotion :=
      { id := next_id
        nombre := promotion_data.nombre
        descripcion := promotion_data.descripcion
        tipo_descuento := promotion_data.tipo_descuento
        valor := promotion_data.valor
        monto_minimo_compra := promotion_data.monto_minimo_compra
        fecha_inicio := promotion_data.fecha_inicio.getD now
        fecha_fin := promotion_data.fecha_fin
        es_activa := true
        uso_maximo := promotion_data.uso_maximo
        uso_actual := 0 }
    (Except.ok promotion, store ++ [promotion])

/-! Order records, app/models/order_models.py, and order handlers -/

structure Order where
  id : Nat
  numero_pedido : Option String
  usuario_id : Nat
  fecha : Option Datetime
  subtotal : ℚ
  descuento_total : ℚ
  costo_envio : ℚ
  impuestos : ℚ
  total : ℚ
  estado : OrderStatus
  direccion_envio_json : Option String
  payment_gateway : Option String
  gateway_payment_id : Option String
  payment_status : Option String
  codigo_seguimiento : Option String
  fecha_envio : Option Datetime
  fecha_entrega_estimada : Option Datetime
  fecha_entrega_real : Option Datetime
  cupon_aplicado : Option String
  descuento_cupon : ℚ
  notas : Option String
  deriving DecidableEq, Repr

structure OrderCreate where
  subtotal : ℚ
  descuento_total : ℚ
  costo_envio : ℚ
  impuestos : ℚ
  total : ℚ
  direccion_envio_json : Option String
  cupon_aplicado : Option String
  descuento_cupon : ℚ
  notas : Option String
  deriving DecidableEq, Repr

structure OrderUpdate where
  estado : Option OrderStatus
  deriving DecidableEq, Repr

/-- The Order row built by create_order (orders.py lines 94-99): the request
fields, usuario_id from the authenticated user, and the column defaults. -/
def order_from_create (now : Datetime) (next_id : Nat) (usuario_id : Nat)
    (order_data : OrderCreate) : Order :=
  { id := next_id
    numero_pedido := none
    usuario_id := usuario_id
    fecha := some now
    subtotal := order_data.subtotal
    descuento_total := order_data.descuento_total
    costo_envio := order_data.costo_envio
    impuestos := order_data.impuestos
    total := order_data.total
    estado := OrderStatus.PENDING_PAYMENT
    direccion_envio_json := order_data.direccion_envio_json
    payment_gateway := none
    gateway_payment_id := none
    payment_status := some "pending"
    codigo_seguimiento := none
    fecha_envio := none
    fecha_entrega_estimada := none
    fecha_entrega_real := none
    cupon_aplicado := order_data.cupon_aplicado
    descuento_cupon := order_data.descuento_cupon
    notas := order_data.notas }

/-- create_order (orders.py lines 87-108), with commit-failure injection as
in create_user: on exception the session is rolled back and HTTP 500 is
returned, leaving the store unchanged. -/
def create_order (now : Datetime) (next_id : Nat) (commit_ok : Bool)
    (store : List Order) (current_user : User) (order_data : OrderCreate) :
    Except ApiError Order × List Order :=
  if commit_ok = false then
    (Except.error (ApiError.serverError "commit failed"), store)
  else
    let order := order_from_create now next_id current_user.id order_data
    (Except.ok order, store ++ [order])

/-- update_order (orders.py lines 110-138): gated by require_admin, then a
404 when the order does not exist, then the fields present in the
OrderUpdate body (only estado) are written. -/
def update_order (store : List Order) (current_user : User) (order_id : Nat)
    (order_data : OrderUpdate) : Except ApiError Order × List Order :=
  match require_admin current_user with
  | Except.error e => (Except.error e, store)
  | Except.ok _ =>
    match store.find? (fun o => o.id == order_id) with
    | none => (Except.error (ApiError.notFound "Pedido no encontrado"), store)
    | some o =>
      let o2 := match order_data.estado with
        | none => o
        | some s => { o with estado := s }
      (Except.ok o2, store.map (fun x => if x.id == order_id then o2 else x))

/-! Soft-delete handlers -/

/-- delete_user (users.py lines 157-174): look the row up by primary key,
404 when absent, otherwise set esta_activo to False and commit. -/
def delete_user (store : List User) (user_id : Nat) :
    Except ApiError Nat × List User :=
  match store.find? (fun u => u.id == user_id) with
  | none => (Except.error (ApiError.notFound "Usuario no encontrado"), store)
  | some _ =>
    (Except.ok user_id,
      store.map (fun u =>
        if u.id == user_id then { u with esta_activo := false } else u))

/-- delete_book (books.py lines 83-100). -/
def delete_book (store : List Book) (book_id : Nat) :
    Except ApiError Nat × List Book :=
  match store.find? (fun b => b.id == book_id) with
  | none => (Except.error (ApiError.notFound "Libro no encontrado"), store)
  | some _ =>
    (Except.ok book_id,
      store.map (fun b =>
        if b.id == book_id then { b with esta_activo := false } else b))

/-- delete_category (categories.py lines 121-138). -/
def delete_category (store : List Category) (category_id : Nat) :
    Except ApiError Nat × List Category :=
  match store.find? (fun c => c.id == category_id) with
  | none =>
    (Except.error (ApiError.notFound "Categoría no encontrada"), store)
  | some _ =>
    (Except.ok category_id,
      store.map (fun c =>
        if c.id == category_id then { c with esta_activa := false } else c))

/-- deactivate_promotion (promotions.py lines 125-148). -/
def deactivate_promotion (store : List Promotion) (promotion_id : Nat) :
    Except ApiError Nat × List Promotion :=
  match store.find? (fun p => p.id == promotion_id) with
  | none =>
    (Except.error (ApiError.notFound "Promoción no encontrada"), store)
  | some _ =>
    (Except.ok promotion_id,
      store.map (fun p =>
        if p.id == promotion_id then { p with es_activa := false } else p))

/-- use_coupon (promotions.py lines 358-381): look the coupon up by codigo,
404 when absent, otherwise increment usos_actuales unconditionally - no
check of es_activo, fecha_expiracion or limite_usos precedes the
increment.  The returned value is usos_restantes: limite_usos minus the new
counter when limite_usos is truthy, None otherwise. -/
def use_coupon (store : List Coupon) (coupon_code : String) :
    Except ApiError (Option Int) × List Coupon :=
  match store.find? (fun c => c.codigo == coupon_code) with
  | none => (Except.error (ApiError.notFound "Cupón no encontrado"), store)
  | some c =>
    let c2 := { c with usos_actuales := c.usos_actuales + 1 }
    (Except.ok (if optNatTruthy c2.limite_usos then
        some ((c2.limite_usos.getD 0 : Int) - (c2.usos_actuales : Int))
      else none),
      store.map (fun x => if x.codigo == coupon_code then c2 else x))

/-! Concrete data for the uniquely-keyed create claim -/

def c3_book_data : BookCreate :=
  { sku := none, titulo := "El Quijote", isbn := some "9780000000001",
    descripcion := none, precio := 50, precio_original := none, stock := 3,
    stock_minimo := 5, url_portada := none, editorial_id := none,
    fecha_publicacion := none, numero_paginas := none, idioma := "español",
    peso_kg := none, dimensiones := none, formato := none }

def c3_existing_book : Book := book_from_create 0 1 c3_book_data

/-- C3 counterexample: create_book performs no lookup before inserting;
submitting a BookCreate whose ISBN equals the ISBN of an existing book is
rejected only by the unique constraint at commit time and surfaces as
HTTP 500, not as the HTTP 400 lookup-before-insert rejection the claim
describes. -/
theorem create_book_duplicate_isbn_not_400 :
    create_book 0 2 [c3_existing_book] c3_book_data =
      (Except.error
        (ApiError.serverError "IntegrityError: UNIQUE constraint failed"),
       [c3_existing_book]) ∧
    (ApiError.serverError "IntegrityError: UNIQUE constraint failed").status =
      500 := by
  exact ⟨rfl, rfl⟩

/-- C3 (amended): create_user, create_coupon and create_category do look
the unique key up before inserting and reject a duplicate with HTTP 400
without inserting anything; create_book has no such lookup, so a duplicate
ISBN is rejected only by the database unique constraint at commit time,
reported as HTTP 500, still inserting nothing. -/
theorem unique_key_creates (hash_password : String → String) (today : Date)
    (now : Datetime) (next_id : Nat) (commit_ok : Bool)
    (users : List User) (user_data user_data2 : UserCreate)
    (coupons : List Coupon) (promotions : List Promotion)
    (coupon_data : CouponCreate)
    (categories : List Category) (category_data : CategoryCreate)
    (books : List Book) (book_data : BookCreate) :
    ((users.find? (fun u => u.email == user_data.email)).isSome = true →
      create_user hash_password today now next_id commit_ok users user_data =
        (Except.error
          (ApiError.badRequest "Ya existe un usuario con este email"),
         users)) ∧
    ((users.find? (fun u => u.email == user_data2.email)).isSome = false →
      (users.find? (fun u =>
        u.numero_documento == user_data2.numero_documento)).isSome = true →
      create_user hash_password today now next_id commit_ok users user_data2 =
        (Except.error (ApiError.badRequest
          "Ya existe un usuario con este número de documento"), users)) ∧
    ((coupons.find? (fun c => c.codigo == coupon_data.codigo)).isSome = true →
      create_coupon next_id coupons promotions coupon_data =
        (Except.error
          (ApiError.badRequest "Ya existe un cupón con este código"),
         coupons)) ∧
    ((categories.find? (fun c =>
        c.nombre == category_data.nombre)).isSome = true →
      create_category next_id categories category_data =
        (Except.error
          (ApiError.badRequest "Ya existe una categoría con este nombre"),
         categories)) ∧
    (books.any (fun b =>
        book_unique_conflict b (book_from_create now next_id book_data)) =
          true →
      create_book now next_id books book_data =
        (Except.error
          (ApiError.serverError "IntegrityError: UNIQUE constraint failed"),
         books)) := by
  refine ⟨?_, ?_, ?_, ?_, ?_⟩
  · intro h1
    unfold create_user
    rw [if_pos h1]
  · intro h1 h2
    unfold create_user
    rw [if_neg (by simp [h1]), if_pos h2]
  · intro h1
    unfold create_coupon
    rw [if_pos h1]
  · intro h1
    unfold create_category
    rw [if_pos h1]
  · intro h1
    unfold create_book
    rw [if_pos h1]

def c3_user : User :=
  { id := 1, nombre := "Ana", apellido := "Solis", email := "ana@tienda.pe",
    hashed_password := "h", telefono := none,
    tipo_documento := TipoDocumento.DNI, numero_documento := "12345678",
    fecha_nacimiento := none, genero := Genero.NO_ESPECIFICADO,
    rol := UserRole.CUSTOMER, acepta_marketing := false,
    fecha_ultima_actividad := none, esta_activo := true,
    fecha_verificacion_email := none, fecha_creacion := none }

def c3_user_data_email : UserCreate :=
  { nombre := "Otra", apellido := "Persona", email := "ana@tienda.pe",
    password := "secreta123", telefono := none,
    tipo_documento := TipoDocumento.DNI, numero_documento := "87654321",
    fecha_nacimiento := none, genero := Genero.NO_ESPECIFICADO,
    acepta_marketing := false }

def c3_user_data_doc : UserCreate :=
  { nombre := "Otra", apellido := "Persona", email := "otra@tienda.pe",
    password := "secreta123", telefono := none,
    tipo_documento := TipoDocumento.DNI, numero_documento := "12345678",
    fecha_nacimiento := none, genero := Genero.NO_ESPECIFICADO,
    acepta_marketing := false }

def c3_coupon : Coupon :=
  { id := 1, codigo := "VERANO", promocion_id := 1, fecha_expiracion := none,
    limite_usos := none, usos_actuales := 0, es_activo := true,
    solo_primer_compra := false }

def c3_coupon_data : CouponCreate :=
  { codigo := "VERANO", promocion_id := 1, fecha_expiracion := none,
    limite_usos := none, solo_primer_compra := false }

def c3_category : Category :=
  { id := 1, nombre := "Novela", url_imagen := none, descripcion := none,
    categoria_padre_id := none, orden_display := 0, esta_activa := true }

def c3_category_data : CategoryCreate :=
  { nombre := "Novela", url_imagen := none, descripcion := none,
    categoria_padre_id := none, orden_display := 0 }

/-- C3 witness: the amended statement applied to concrete one-row stores
holding the duplicate email, document, coupon code, category name and
ISBN. -/
theorem unique_key_creates_witness :
    (create_user (fun p => p) ⟨2024, 1, 1⟩ 0 7 true [c3_user]
        c3_user_data_email =
      (Except.error
        (ApiError.badRequest "Ya existe un usuario con este email"),
       [c3_user])) ∧
    (create_user (fun p => p) ⟨2024, 1, 1⟩ 0 7 true [c3_user]
        c3_user_data_doc =
      (Except.error (ApiError.badRequest
        "Ya existe un usuario con este número de documento"), [c3_user])) ∧
    (create_coupon 7 [c3_coupon] [] c3_coupon_data =
      (Except.error
        (ApiError.badRequest "Ya existe un cupón con este código"),
       [c3_coupon])) ∧
    (create_category 7 [c3_category] c3_category_data =
      (Except.error
        (ApiError.badRequest "Ya existe una categoría con este nombre"),
       [c3_category])) ∧
    (create_book 0 7 [c3_existing_book] c3_book_data =
      (Except.error
        (ApiError.serverError "IntegrityError: UNIQUE constraint failed"),
       [c3_existing_book])) := by
  have h := unique_key_creates (fun p => p) ⟨2024, 1, 1⟩ 0 7 true [c3_user]
    c3_user_data_email c3_user_data_doc [c3_coupon] [] c3_coupon_data
    [c3_category] c3_category_data [c3_existing_book] c3_book_data
  exact ⟨h.1 (by decide), h.2.1 (by decide) (by decide), h.2.2.1 (by decide),
    h.2.2.2.1 (by decide), h.2.2.2.2 (by decide)⟩

/-! Concrete data for the default-listing claim -/

def c4_inactive_book : Book :=
  { id := 1, sku := none, titulo := "Descatalogado", isbn := none,
    descripcion := none, precio := 10, precio_original := none, stock := 0,
    stock_minimo := 5, url_portada := none, imagenes_adicionales := none,
    editorial_id := none, fecha_publicacion := none, numero_paginas := none,
    idioma := "español", peso_kg := none, dimensiones := none,
    formato := none, esta_activo := false, es_destacado := false,
    es_nuevo := false, es_bestseller := false, fecha_creacion := none,
    fecha_actualizacion := none, vistas := 0, ventas_totales := 0 }

def c4_inactive_user : User :=
  { id := 1, nombre := "Baja", apellido := "Dada", email := "baja@tienda.pe",
    hashed_password := "h", telefono := none,
    tipo_documento := TipoDocumento.DNI, numero_documento := "11112222",
    fecha_nacimiento := none, genero := Genero.NO_ESPECIFICADO,
    rol := UserRole.CUSTOMER, acepta_marketing := false,
    fecha_ultima_actividad := none, esta_activo := false,
    fecha_verificacion_email := none, fecha_creacion := none }

def c4_inactive_promotion : Promotion :=
  { id := 1, nombre := "Pasada", descripcion := none,
    tipo_descuento := DiscountType.PERCENTAGE, valor := 10,
    monto_minimo_compra := 0, fecha_inicio := 0, fecha_fin := none,
    es_activa := false, uso_maximo := none, uso_actual := 0 }

/-- C4: at the failing input - a store whose only book is soft deleted -
GET /books/ with default parameters returns the inactive book, because the
route is served by the first registered handler, which never filters; the
shadowed second handler would have excluded it, and the users and
promotions listings do exclude their inactive records by default. -/
theorem default_book_listing_shows_soft_deleted :
    c4_inactive_book.esta_activo = false ∧
    books_GET_root [c4_inactive_book] = [c4_inactive_book] ∧
    get_books_smart [c4_inactive_book] 0 100 true none none none none
      none none = [] ∧
    get_users 0 100 true [c4_inactive_user] = [] ∧
    get_promotions 0 100 true 0 [c4_inactive_promotion] = [] := by
  exact ⟨rfl, rfl, rfl, rfl, rfl⟩

/-- C5: require_admin passes exactly the admin and staff roles; a request
authenticated as a cliente against an admin-gated handler - creating a
promotion, updating an order - receives 403 and the store is untouched,
while an admin or staff user passes the guard. -/
theorem require_admin_characterization (u v : User) (now : Datetime)
    (next_id : Nat) (promotions : List Promotion)
    (promotion_data : PromotionCreate) (orders : List Order)
    (order_id : Nat) (order_data : OrderUpdate) :
    ((require_admin u).isOk = true ↔
      (u.rol = UserRole.ADMIN ∨ u.rol = UserRole.STAFF)) ∧
    (u.rol = UserRole.CUSTOMER →
      create_promotion now next_id promotions u promotion_data =
        (Except.error
          (ApiError.forbidden "No tienes permisos de administrador"),
         promotions) ∧
      update_order orders u order_id order_data =
        (Except.error
          (ApiError.forbidden "No tienes permisos de administrador"),
         orders)) ∧
    ((v.rol = UserRole.ADMIN ∨ v.rol = UserRole.STAFF) →
      require_admin v = Except.ok v) ∧
    (ApiError.forbidden "No tienes permisos de administrador").status =
      403 := by
  refine ⟨?_, ?_, ?_, rfl⟩
  · unfold require_admin
    cases hrol : u.rol <;> simp [hrol, Except.isOk, Except.toBool]
  · intro hrol
    have hra : require_admin u =
        Except.error (ApiError.forbidden
          "No tienes permisos de administrador") := by
      unfold require_admin
      rw [hrol]
      rfl
    constructor
    · unfold create_promotion
      rw [hra]
    · unfold update_order
      rw [hra]
  · intro hrol
    unfold require_admin
    rcases hrol with h | h <;> rw [h] <;> rfl

def c5_cliente : User :=
  { id := 2, nombre := "Carla", apellido := "Cliente",
    email := "carla@tienda.pe", hashed_password := "h", telefono := none,
    tipo_documento := TipoDocumento.DNI, numero_documento := "33334444",
    fecha_nacimiento := none, genero := Genero.NO_ESPECIFICADO,
    rol := UserRole.CUSTOMER, acepta_marketing := false,
    fecha_ultima_actividad := none, esta_activo := true,
    fecha_verificacion_email := none, fecha_creacion := none }

def c5_admin : User :=
  { id := 3, nombre := "Adan", apellido := "Admin",
    email := "root@tienda.pe", hashed_password := "h", telefono := none,
    tipo_documento := TipoDocumento.DNI, numero_documento := "55556666",
    fecha_nacimiento := none, genero := Genero.NO_ESPECIFICADO,
    rol := UserRole.ADMIN, acepta_marketing := false,
    fecha_ultima_actividad := none, esta_activo := true,
    fecha_verificacion_email := none, fecha_creacion := none }

def c5_promotion_data : PromotionCreate :=
  { nombre := "Dia del libro", descripcion := none,
    tipo_descuento := DiscountType.PERCENTAGE, valor := 10,
    monto_minimo_compra := 0, fecha_inicio := none, fecha_fin := none,
    uso_maximo := none }

/-- C5 witness: the characterization applied to a concrete cliente user and
a concrete admin user over empty stores. -/
theorem require_admin_characterization_witness :
    ((require_admin c5_cliente).isOk = true ↔
      (c5_cliente.rol = UserRole.ADMIN ∨ c5_cliente.rol = UserRole.STAFF)) ∧
    (create_promotion 0 7 [] c5_cliente c5_promotion_data =
        (Except.error
          (ApiError.forbidden "No tienes permisos de administrador"), []) ∧
      update_order [] c5_cliente 1 { estado := none } =
        (Except.error
          (ApiError.forbidden "No tienes permisos de administrador"), [])) ∧
    (require_admin c5_admin = Except.ok c5_admin) ∧
    (ApiError.forbidden "No tienes permisos de administrador").status =
      403 := by
  have h := require_admin_characterization c5_cliente c5_admin 0 7 []
    c5_promotion_data [] 1 { estado := none }
  exact ⟨h.1, h.2.1 rfl, h.2.2.1 (Or.inl rfl), h.2.2.2⟩

/-- C6: each mutating handler is atomic: its post-state is either exactly
the pre-state - every error path, including an injected commit failure,
rolls the transaction back - or the pre-state with exactly the one new row
appended; an erroring use_coupon also leaves the store untouched.  No
execution leaves a partial write behind. -/
theorem mutating_handlers_atomic (hash_password : String → String)
    (today : Date) (now : Datetime) (next_id : Nat) (commit_ok : Bool)
    (users : List User) (user_data : UserCreate)
    (orders : List Order) (current_user : User) (order_data : OrderCreate)
    (coupons : List Coupon) (code : String) :
    ((create_user hash_password today now next_id commit_ok users
        user_data).2 = users ∨
      ∃ u, create_user hash_password today now next_id commit_ok users
          user_data = (Except.ok u, users ++ [u])) ∧
    ((create_order now next_id commit_ok orders current_user
        order_data).2 = orders ∨
      ∃ o, create_order now next_id commit_ok orders current_user
          order_data = (Except.ok o, orders ++ [o])) ∧
    ((use_coupon coupons code).2 = coupons ∨
      (use_coupon coupons code).1.isOk = true) := by
  refine ⟨?_, ?_, ?_⟩
  · unfold create_user
    split_ifs with h1 h2 h3 h4 h5
    · exact Or.inl rfl
    · exact Or.inl rfl
    · exact Or.inl rfl
    · exact Or.inl rfl
    · exact Or.inl rfl
    · exact Or.inr
        ⟨user_from_create hash_password now next_id user_data, rfl⟩
  · unfold create_order
    split_ifs with h1
    · exact Or.inl rfl
    · exact Or.inr ⟨order_from_create now next_id current_user.id order_data,
        rfl⟩
  · rcases hfind : coupons.find? (fun c => c.codigo == code) with _ | c
    · left
      unfold use_coupon
      rw [hfind]
    · right
      unfold use_coupon
      rw [hfind]
      rfl

/-- Pointwise description of a mapped list as a Forall₂ relation. -/
theorem forall2_map_of_pointwise {α : Type} (P : α → α → Prop) (l : List α)
    (f : α → α) (h : ∀ x ∈ l, P x (f x)) :
    List.Forall₂ P l (l.map f) := by
  induction l with
  | nil => exact List.Forall₂.nil
  | cons a t ih =>
    exact List.Forall₂.cons (h a (List.mem_cons_self a t))
      (ih (fun x hx => h x (List.mem_cons_of_mem a hx)))

/-- C7: each soft-delete endpoint removes nothing: with an unknown id it
returns 404 and changes nothing, and with a known id it answers ok,
rewrites every record carrying that id to the same record with only the
active flag set to false, and leaves every other record exactly as it
was - for users, books, categories and promotions alike. -/
theorem soft_delete_frame (users : List User) (books : List Book)
    (categories : List Category) (promotions : List Promotion)
    (uid uid2 bid bid2 cid cid2 pid pid2 : Nat) :
    ((users.find? (fun u => u.id == uid2) = none →
        delete_user users uid2 =
          (Except.error (ApiError.notFound "Usuario no encontrado"),
           users)) ∧
      ((users.find? (fun u => u.id == uid)).isSome = true →
        (delete_user users uid).1 = Except.ok uid ∧
        List.Forall₂ (fun old new =>
            (old.id ≠ uid → new = old) ∧
            (old.id = uid → new = { old with esta_activo := false }))
          users (delete_user users uid).2)) ∧
    ((books.find? (fun b => b.id == bid2) = none →
        delete_book books bid2 =
          (Except.error (ApiError.notFound "Libro no encontrado"),
           books)) ∧
      ((books.find? (fun b => b.id == bid)).isSome = true →
        (delete_book books bid).1 = Except.ok bid ∧
        List.Forall₂ (fun old new =>
            (old.id ≠ bid → new = old) ∧
            (old.id = bid → new = { old with esta_activo := false }))
          books (delete_book books bid).2)) ∧
    ((categories.find? (fun c => c.id == cid2) = none →
        delete_category categories cid2 =
          (Except.error (ApiError.notFound "Categoría no encontrada"),
           categories)) ∧
      ((categories.find? (fun c => c.id == cid)).isSome = true →
        (delete_category categories cid).1 = Except.ok cid ∧
        List.Forall₂ (fun old new =>
            (old.id ≠ cid → new = old) ∧
            (old.id = cid → new = { old with esta_activa := false }))
          categories (delete_category categories cid).2)) ∧
    ((promotions.find? (fun p => p.id == pid2) = none →
        deactivate_promotion promotions pid2 =
          (Except.error (ApiError.notFound "Promoción no encontrada"),
           promotions)) ∧
      ((promotions.find? (fun p => p.id == pid)).isSome = true →
        (deactivate_promotion promotions pid).1 = Except.ok pid ∧
        List.Forall₂ (fun old new =>
            (old.id ≠ pid → new = old) ∧
            (old.id = pid → new = { old with es_activa := false }))
          promotions (deactivate_promotion promotions pid).2)) := by
  refine ⟨⟨?_, ?_⟩, ⟨?_, ?_⟩, ⟨?_, ?_⟩, ⟨?_, ?_⟩⟩
  · intro h
    unfold delete_user
    rw [h]
  · intro h
    rcases hfind : users.find? (fun u => u.id == uid) with _ | x
    · rw [hfind] at h
      cases h
    · unfold delete_user
      rw [hfind]
      exact ⟨rfl, forall2_map_of_pointwise _ users
        (fun u => if u.id == uid then { u with esta_activo := false } else u)
        (fun u _ => ⟨fun hne => by
            have hb : (u.id == uid) = false := beq_eq_false_iff_ne.mpr hne
            simp [hb],
          fun heq => by
            have hb : (u.id == uid) = true := beq_iff_eq.mpr heq
            simp [hb]⟩)⟩
  · intro h
    unfold delete_book
    rw [h]
  · intro h
    rcases hfind : books.find? (fun b => b.id == bid) with _ | x
    · rw [hfind] at h
      cases h
    · unfold delete_book
      rw [hfind]
      exact ⟨rfl, forall2_map_of_pointwise _ books
        (fun b => if b.id == bid then { b with esta_activo := false } else b)
        (fun b _ => ⟨fun hne => by
            have hb : (b.id == bid) = false := beq_eq_false_iff_ne.mpr hne
            simp [hb],
          fun heq => by
            have hb : (b.id == bid) = true := beq_iff_eq.mpr heq
            simp [hb]⟩)⟩
  · intro h
    unfold delete_category
    rw [h]
  · intro h
    rcases hfind : categories.find? (fun c => c.id == cid) with _ | x
    · rw [hfind] at h
      cases h
    · unfold delete_category
      rw [hfind]
      exact ⟨rfl, forall2_map_of_pointwise _ categories
        (fun c => if c.id == cid then { c with esta_activa := false } else c)
        (fun c _ => ⟨fun hne => by
            have hb : (c.id == cid) = false := beq_eq_false_iff_ne.mpr hne
            simp [hb],
          fun heq => by
            have hb : (c.id == cid) = true := beq_iff_eq.mpr heq
            simp [hb]⟩)⟩
  · intro h
    unfold deactivate_promotion
    rw [h]
  · intro h
    rcases hfind : promotions.find? (fun p => p.id == pid) with _ | x
    · rw [hfind] at h
      cases h
    · unfold deactivate_promotion
      rw [hfind]
      exact ⟨rfl, forall2_map_of_pointwise _ promotions
        (fun p => if p.id == pid then { p with es_activa := false } else p)
        (fun p _ => ⟨fun hne => by
            have hb : (p.id == pid) = false := beq_eq_false_iff_ne.mpr hne
            simp [hb],
          fun heq => by
            have hb : (p.id == pid) = true := beq_iff_eq.mpr heq
            simp [hb]⟩)⟩

def c7_user : User :=
  { id := 1, nombre := "Luz", apellido := "Diaz", email := "luz@tienda.pe",
    hashed_password := "h", telefono := some "999888777",
    tipo_documento := TipoDocumento.DNI, numero_documento := "44445555",
    fecha_nacimiento := none, genero := Genero.FEMENINO,
    rol := UserRole.CUSTOMER, acepta_marketing := true,
    fecha_ultima_actividad := some 100, esta_activo := true,
    fecha_verificacion_email := none, fecha_creacion := some 50 }

def c7_book : Book :=
  { id := 1, sku := some "LIB-001", titulo := "Tradiciones",
    isbn := some "9780000000002", descripcion := none, precio := 35,
    precio_original := none, stock := 4, stock_minimo := 5,
    url_portada := none, imagenes_adicionales := none,
    editorial_id := none, fecha_publicacion := none, numero_paginas := none,
    idioma := "español", peso_kg := none, dimensiones := none,
    formato := none, esta_activo := true, es_destacado := false,
    es_nuevo := false, es_bestseller := false, fecha_creacion := none,
    fecha_actualizacion := none, vistas := 7, ventas_totales := 2 }

def c7_category : Category :=
  { id := 1, nombre := "Historia", url_imagen := none, descripcion := none,
    categoria_padre_id := none, orden_display := 1, esta_activa := true }

def c7_promotion : Promotion :=
  { id := 1, nombre := "Fiestas", descripcion := none,
    tipo_descuento := DiscountType.FIXED_AMOUNT, valor := 5,
    monto_minimo_compra := 20, fecha_inicio := 0, fecha_fin := some 10,
    es_activa := true, uso_maximo := none, uso_actual := 0 }

/-- C7 witness: the frame statement applied to concrete one-row stores,
with id 1 present and id 2 absent. -/
theorem soft_delete_frame_witness :
    (delete_user [c7_user] 2 =
      (Except.error (ApiError.notFound "Usuario no encontrado"),
       [c7_user])) ∧
    ((delete_user [c7_user] 1).1 = Except.ok 1 ∧
      List.Forall₂ (fun old new =>
          (old.id ≠ 1 → new = old) ∧
          (old.id = 1 → new = { old with esta_activo := false }))
        [c7_user] (delete_user [c7_user] 1).2) ∧
    (delete_book [c7_book] 2 =
      (Except.error (ApiError.notFound "Libro no encontrado"), [c7_book])) ∧
    ((delete_book [c7_book] 1).1 = Except.ok 1 ∧
      List.Forall₂ (fun old new =>
          (old.id ≠ 1 → new = old) ∧
          (old.id = 1 → new = { old with esta_activo := false }))
        [c7_book] (delete_book [c7_book] 1).2) ∧
    (delete_category [c7_category] 2 =
      (Except.error (ApiError.notFound "Categoría no encontrada"),
       [c7_category])) ∧
    ((delete_category [c7_category] 1).1 = Except.ok 1 ∧
      List.Forall₂ (fun old new =>
          (old.id ≠ 1 → new = old) ∧
          (old.id = 1 → new = { old with esta_activa := false }))
        [c7_category] (delete_category [c7_category] 1).2) ∧
    (deactivate_promotion [c7_promotion] 2 =
      (Except.error (ApiError.notFound "Promoción no encontrada"),
       [c7_promotion])) ∧
    ((deactivate_promotion [c7_promotion] 1).1 = Except.ok 1 ∧
      List.Forall₂ (fun old new =>
          (old.id ≠ 1 → new = old) ∧
          (old.id = 1 → new = { old with es_activa := false }))
        [c7_promotion] (deactivate_promotion [c7_promotion] 1).2) := by
  have h := soft_delete_frame [c7_user] [c7_book] [c7_category]
    [c7_promotion] 1 2 1 2 1 2 1 2
  exact ⟨h.1.1 rfl, h.1.2 rfl, h.2.1.1 rfl, h.2.1.2 rfl,
    h.2.2.1.1 rfl, h.2.2.1.2 rfl, h.2.2.2.1 rfl, h.2.2.2.2 rfl⟩

/-! Concrete data for the use_coupon claim: an inactive, expired coupon
already at its usage limit. -/

def c9_exhausted : Coupon :=
  { id := 9, codigo := "AGOTADO", promocion_id := 1,
    fecha_expiracion := some (-5), limite_usos := some 2,
    usos_actuales := 2, es_activo := false, solo_primer_compra := false }

/-- C9: use_coupon with an unknown code answers 404 and changes nothing;
with a known code, under the unique-codigo constraint the database
enforces, it increments usos_actuales of exactly the matching coupon by
one and changes no other field and no other record - no check of
es_activo, fecha_expiracion or limite_usos precedes the increment, so the
inactive, expired coupon already at its limit of 2 is pushed to 3 and the
invariant usos_actuales <= limite_usos is not maintained. -/
theorem use_coupon_increments_unconditionally (coupons : List Coupon)
    (code code2 : String)
    (huniq : (coupons.map Coupon.codigo).Nodup) :
    (coupons.find? (fun c => c.codigo == code2) = none →
      use_coupon coupons code2 =
        (Except.error (ApiError.notFound "Cupón no encontrado"), coupons)) ∧
    (∀ c, coupons.find? (fun c2 => c2.codigo == code) = some c →
      List.Forall₂ (fun old new =>
          (old.codigo ≠ code → new = old) ∧
          (old.codigo = code →
            new = { old with usos_actuales := old.usos_actuales + 1 }))
        coupons (use_coupon coupons code).2) ∧
    ((use_coupon [c9_exhausted] "AGOTADO").2 =
      [{ c9_exhausted with usos_actuales := 3 }] ∧
     c9_exhausted.es_activo = false ∧
     c9_exhausted.limite_usos = some 2 ∧
     c9_exhausted.usos_actuales = 2) := by
  refine ⟨?_, ?_, rfl, rfl, rfl, rfl⟩
  · intro h
    unfold use_coupon
    rw [h]
  · intro c hfind
    have hc_mem : c ∈ coupons := List.mem_of_find?_eq_some hfind
    have hc_code : c.codigo = code := by
      have := List.find?_some hfind
      exact beq_iff_eq.mp this
    unfold use_coupon
    rw [hfind]
    refine forall2_map_of_pointwise _ coupons
      (fun x => if x.codigo == code then
        { c with usos_actuales := c.usos_actuales + 1 } else x)
      (fun x hx => ⟨fun hne => by
          have hb : (x.codigo == code) = false := beq_eq_false_iff_ne.mpr hne
          simp [hb],
        fun heq => by
          have hb : (x.codigo == code) = true := beq_iff_eq.mpr heq
          have hxc : x = c :=
            List.inj_on_of_nodup_map huniq hx hc_mem (by rw [heq, hc_code])
          subst hxc
          simp [hb]⟩)

/-- C9 witness: the frame statement applied to the concrete one-coupon
store, with the known code AGOTADO and the unknown code NOEXISTE. -/
theorem use_coupon_increments_unconditionally_witness :
    (use_coupon [c9_exhausted] "NOEXISTE" =
      (Except.error (ApiError.notFound "Cupón no encontrado"),
       [c9_exhausted])) ∧
    List.Forall₂ (fun old new =>
        (old.codigo ≠ "AGOTADO" → new = old) ∧
        (old.codigo = "AGOTADO" →
          new = { old with usos_actuales := old.usos_actuales + 1 }))
      [c9_exhausted] (use_coupon [c9_exhausted] "AGOTADO").2 := by
  have h := use_coupon_increments_unconditionally [c9_exhausted] "AGOTADO"
    "NOEXISTE" (by simp)
  exact ⟨h.1 rfl, h.2.1 c9_exhausted rfl⟩

/-- C10: both public registration handlers force rol cliente: whenever
register_user or auth.register inserts a row, the inserted user carries
rol cliente and the store gains exactly that one row; the request models
carry no rol field, so a submitted role never reaches the insert. -/
theorem public_registration_forces_cliente (hash_password : String → String)
    (today : Date) (now : Datetime) (next_id : Nat) (commit_ok : Bool)
    (store : List User) (user_data : UserRegister) :
    ((register_user hash_password today now next_id commit_ok store
        user_data).2 = store ∨
      ∃ u, register_user hash_password today now next_id commit_ok store
          user_data = (Except.ok u, store ++ [u]) ∧
        u.rol = UserRole.CUSTOMER) ∧
    ((auth_register hash_password now next_id commit_ok store
        user_data).2 = store ∨
      ∃ u, auth_register hash_password now next_id commit_ok store
          user_data = (Except.ok u, store ++ [u]) ∧
        u.rol = UserRole.CUSTOMER) := by
  constructor
  · unfold register_user
    split_ifs with h1 h2 h3 h4 h5
    · exact Or.inl rfl
    · exact Or.inl rfl
    · exact Or.inl rfl
    · exact Or.inl rfl
    · exact Or.inl rfl
    · exact Or.inr
        ⟨user_from_register hash_password now next_id user_data, rfl, rfl⟩
  · unfold auth_register
    split_ifs with h1 h2 h3
    · exact Or.inl rfl
    · exact Or.inl rfl
    · exact Or.inl rfl
    · exact Or.inr
        ⟨user_from_register hash_password now next_id user_data, rfl, rfl⟩

end Libreria
